import Mathlib

/-!
Shallow embedding of the ledger engine of `src/database.py` (repository
sznckz90-cloud/vuuug), together with the policy constants of
`src/config.py`.  Monetary amounts (SQL `DECIMAL`) are modelled as `ℚ`,
timestamps (`TIMESTAMP`, `CURRENT_TIMESTAMP`, `NOW()`) as `Nat` seconds,
and calendar dates (`DATE`, `datetime.now().date()`) as `Nat` day indices.
Each Python method commits at most one transaction; the embedding of a
method is a function from the database state to a result paired with the
post-transaction state.  A caught exception (the `except` blocks) returns
an error result and leaves the state at its last committed value.
-/

namespace VuuugDB

/-- A row of the `users` table (`create_tables` in src/database.py). -/
structure User where
  id : Nat
  telegram_id : Nat
  username : String
  first_name : String
  last_name : String
  language : String
  balance : ℚ
  hold_balance : ℚ
  earned_today : ℚ
  earned_total : ℚ
  watched_today : Nat
  streak : Nat
  streak_multiplier : ℚ
  is_subscribed : Bool
  referral_code : String
  referred_by : Option Nat
  created_at : Nat
  last_active : Nat
  last_streak_claim : Option Nat
  deriving DecidableEq

/-- A row of the `ad_views` table.  `add_ad_view` inserts the caller's
`telegram_id` into the `user_id` column (src/database.py line 190), even
though the schema declares `user_id INTEGER REFERENCES users(id)`; the
embedding reproduces the stored value faithfully, and the foreign key is
enforced in `add_ad_view` below. -/
structure AdView where
  user_id : Nat
  ad_type : String
  reward : ℚ
  created_at : Nat
  deriving DecidableEq

/-- A row of the `referrals` table; both ids are internal `users.id` values. -/
structure Referral where
  referrer_id : Nat
  referred_id : Nat
  created_at : Nat
  deriving DecidableEq

/-- A row of the `withdrawals` table; `user_id` is the internal id obtained
by the `SELECT id FROM users WHERE telegram_id = ...` subquery. -/
structure Withdrawal where
  user_id : Nat
  method : String
  amount : ℚ
  address : String
  status : String
  created_at : Nat
  deriving DecidableEq

/-- The relational store.  `next_id` models the `SERIAL` sequence behind
`users.id`. -/
structure DBState where
  users : List User
  withdrawals : List Withdrawal
  referrals : List Referral
  ad_views : List AdView
  next_id : Nat
  deriving DecidableEq

def emptyDB : DBState := ⟨[], [], [], [], 1⟩

/-- `SELECT ... FROM users WHERE telegram_id = %s` (telegram_id is UNIQUE). -/
def findUser (s : DBState) (tid : Nat) : Option User :=
  s.users.find? (fun u => u.telegram_id == tid)

/-- `UPDATE users SET ... WHERE telegram_id = %s`. -/
def updateUser (s : DBState) (tid : Nat) (f : User → User) : DBState :=
  { s with users := s.users.map (fun u => if u.telegram_id = tid then f u else u) }

/-- src/config.py: `PER_AD_REWARD = 0.00024`. -/
def PER_AD_REWARD : ℚ := 0.00024

/-- src/config.py: `STREAK_BONUS = 0.002`.  NOTE: src/database.py imports
only `DB_CONFIG` from config, so this name is NOT in scope inside
`Database.claim_streak`. -/
def STREAK_BONUS : ℚ := 0.002

/-- `f"ref{telegram_id}"[-10:]` in `create_user` (src/database.py line 114):
the last (at most) ten characters of `"ref"` followed by the decimal form
of the telegram id. -/
def generated_referral_code (telegram_id : Nat) : String :=
  ("ref" ++ toString telegram_id).takeRight 10

/-- `Database.create_user` (src/database.py lines 109-134).  Generates a
referral code when none (or an empty string, Python falsiness) is supplied;
the INSERT violates a UNIQUE constraint when the telegram id or the
referral code already exists, in which case the exception handler returns
`None` and nothing is committed.  When `referred_by` is truthy a referral
edge is inserted in the same transaction. -/
def create_user (tid : Nat) (username first_name last_name : String)
    (referral_code : Option String) (referred_by : Option Nat) (now : Nat)
    (s : DBState) : Option Nat × DBState :=
  let code := match referral_code with
    | some c => if c = "" then generated_referral_code tid else c
    | none => generated_referral_code tid
  if s.users.any (fun u => u.telegram_id == tid)
      || s.users.any (fun u => u.referral_code == code) then
    (none, s)
  else
    let uid := s.next_id
    let newUser : User :=
      { id := uid, telegram_id := tid, username := username,
        first_name := first_name, last_name := last_name, language := "en",
        balance := 0, hold_balance := 0, earned_today := 0, earned_total := 0,
        watched_today := 0, streak := 0, streak_multiplier := 1,
        is_subscribed := false, referral_code := code,
        referred_by := referred_by, created_at := now, last_active := now,
        last_streak_claim := none }
    let refs := if referred_by.getD 0 ≠ 0 then
        s.referrals ++ [⟨referred_by.getD 0, uid, now⟩]
      else s.referrals
    (some uid,
     { s with users := s.users ++ [newUser], referrals := refs,
              next_id := uid + 1 })

/-- `Database.add_ad_view` (src/database.py lines 162-198).  The UPDATE
bumps `watched_today`, adds the reward to `earned_today`, `earned_total`
and `hold_balance`, and stamps `last_active`; the INSERT then puts the
telegram id into `ad_views.user_id` with the literal ad type `'monetag'`.
That column is declared `INTEGER REFERENCES users(id)`, a constraint
checked at insert time: unless the telegram id equals some existing
internal `users.id`, the INSERT raises a foreign-key violation, the
`except` handler returns `False`, and the commit at line 193 is never
reached, so the UPDATE is not persisted either — the call is the
identity on the store.  Only when the ids coincide does the transaction
commit and the call return `True`. -/
def add_ad_view (tid : Nat) (reward : ℚ) (now : Nat) (s : DBState) :
    Bool × DBState :=
  match findUser s tid with
  | none => (false, s)
  | some _ =>
    if s.users.any (fun u => u.id == tid) then
      let s1 := updateUser s tid (fun u =>
        { u with watched_today := u.watched_today + 1,
                 earned_today := u.earned_today + reward,
                 earned_total := u.earned_total + reward,
                 hold_balance := u.hold_balance + reward,
                 last_active := now })
      (true, { s1 with ad_views := s1.ad_views ++ [⟨tid, "monetag", reward, now⟩] })
    else
      (false, s)

/-- Result pair of `Database.claim_streak`: `(True, bonus)` or
`(False, message)`. -/
inductive ClaimResult where
  | ok (bonus : ℚ)
  | err (msg : String)
  deriving DecidableEq

/-- `new_multiplier = min(1.0 + (new_streak * 0.002), 2.0)`
(src/database.py line 225): a pure function of the new streak value alone;
the previous multiplier is read but never used in the computation. -/
def new_multiplier (new_streak : Nat) : ℚ :=
  min (1 + (new_streak : ℚ) * 0.002) 2

/-- `Database.claim_streak` (src/database.py lines 200-249).  The guard
`last_streak_claim == today` returns the already-claimed failure.  On the
would-be success path the source computes `new_streak` (`streak + 1` when
the last claim was exactly yesterday, else `1`) and `new_multiplier`, then
evaluates `bonus = STREAK_BONUS * new_multiplier` (line 228); database.py
imports only `DB_CONFIG` from config, so `STREAK_BONUS` is an unbound name
and the line raises `NameError` before the UPDATE or the commit.  The
`except` handler returns `(False, str(e))` and the row is left untouched. -/
def claim_streak (tid : Nat) (today : Nat) (s : DBState) :
    ClaimResult × DBState :=
  match findUser s tid with
  | none => (.err "User not found", s)
  | some u =>
    if u.last_streak_claim = some today then
      (.err "Already claimed today", s)
    else
      (.err "NameError: name STREAK_BONUS is not defined", s)

/-- `Database.create_withdrawal` (src/database.py lines 299-329).  When the
user row is missing, `cursor.fetchone()` yields `None` and the `[0]`
subscript raises `TypeError`, caught and returned as a failure.  When
`balance < amount` the call fails with no mutation; otherwise one
transaction debits the balance and inserts a `pending` withdrawal row. -/
def create_withdrawal (tid : Nat) (method : String) (amount : ℚ)
    (address : String) (now : Nat) (s : DBState) :
    (Bool × String) × DBState :=
  match findUser s tid with
  | none => ((false, "TypeError: NoneType object is not subscriptable"), s)
  | some u =>
    if u.balance < amount then
      ((false, "Insufficient balance"), s)
    else
      let s1 := updateUser s tid (fun v => { v with balance := v.balance - amount })
      ((true, "Withdrawal request created successfully"),
       { s1 with withdrawals :=
          s1.withdrawals ++ [⟨u.id, method, amount, address, "pending", now⟩] })

/-- `INTERVAL '30 days'` in seconds. -/
def THIRTY_DAYS : Nat := 2592000

/-- `created_at >= NOW() - INTERVAL '30 days'`, stated without natural
subtraction. -/
def within_30 (now t : Nat) : Bool := now ≤ t + THIRTY_DAYS

/-- Result record of `Database.get_referral_stats`. -/
structure ReferralStats where
  total_referrals : Nat
  active_referrals : Nat
  new_referrals_30 : Nat
  new_active_referrals_30 : Nat
  profit_30 : ℚ
  new_profit_30 : ℚ
  deriving DecidableEq

/-- `Database.get_referral_stats` (src/database.py lines 331-407).  The
profit figures sum `a.reward * 0.2` over the join of `ad_views a` with
`referrals r` on `a.user_id = r.referred_id`, restricted to this referrer
and to views (and, for `new_profit_30`, also referrals) of the last 30
days. -/
def get_referral_stats (tid : Nat) (now : Nat) (s : DBState) :
    Option ReferralStats :=
  match findUser s tid with
  | none => none
  | some u =>
    let uid := u.id
    let mine := s.referrals.filter (fun r => r.referrer_id == uid)
    some
      { total_referrals := mine.length,
        active_referrals :=
          ((mine.filter (fun r =>
              s.ad_views.any (fun a => a.user_id == r.referred_id))).map
            (fun r => r.referred_id)).dedup.length,
        new_referrals_30 :=
          (mine.filter (fun r => within_30 now r.created_at)).length,
        new_active_referrals_30 :=
          ((mine.filter (fun r => within_30 now r.created_at &&
              s.ad_views.any (fun a => a.user_id == r.referred_id))).map
            (fun r => r.referred_id)).dedup.length,
        profit_30 :=
          (s.ad_views.flatMap (fun a =>
            (s.referrals.filter (fun r => r.referrer_id == uid &&
                r.referred_id == a.user_id &&
                within_30 now a.created_at)).map
              (fun _ => a.reward * 0.2))).sum,
        new_profit_30 :=
          (s.ad_views.flatMap (fun a =>
            (s.referrals.filter (fun r => r.referrer_id == uid &&
                r.referred_id == a.user_id &&
                within_30 now r.created_at &&
                within_30 now a.created_at)).map
              (fun _ => a.reward * 0.2))).sum }

/-- `Database.reset_daily_stats` (src/database.py lines 409-419): one bulk
`UPDATE users SET watched_today = 0, earned_today = 0`. -/
def reset_daily_stats (s : DBState) : Bool × DBState :=
  (true,
   { s with users := s.users.map (fun u =>
      { u with watched_today := 0, earned_today := 0 }) })

/-- `Database.update_user_language` (src/database.py lines 136-147). -/
def update_user_language (tid : Nat) (language : String) (s : DBState) :
    Bool × DBState :=
  (true, updateUser s tid (fun u => { u with language := language }))

/-- `Database.update_user_subscription` (src/database.py lines 149-160). -/
def update_user_subscription (tid : Nat) (b : Bool) (s : DBState) :
    Bool × DBState :=
  (true, updateUser s tid (fun u => { u with is_subscribed := b }))

/-- `n` consecutive calls of `add_ad_view` for the same user. -/
def iterate_ad_views (tid : Nat) (reward : ℚ) (now : Nat) :
    Nat → DBState → DBState
  | 0, s => s
  | n + 1, s => iterate_ad_views tid reward now n (add_ad_view tid reward now s).2

/-- The mutating operations the engine exposes (every state-changing method
of `Database`). -/
inductive Op where
  | createUser (tid : Nat) (username first_name last_name : String)
      (referral_code : Option String) (referred_by : Option Nat) (now : Nat)
  | adView (tid : Nat) (reward : ℚ) (now : Nat)
  | streak (tid : Nat) (today : Nat)
  | withdrawal (tid : Nat) (method : String) (amount : ℚ) (address : String)
      (now : Nat)
  | resetDaily
  | setLanguage (tid : Nat) (language : String)
  | setSubscription (tid : Nat) (b : Bool)

/-- The state transition of one engine operation (results discarded). -/
def applyOp : Op → DBState → DBState
  | .createUser tid un fn ln rc rb now, s => (create_user tid un fn ln rc rb now s).2
  | .adView tid r now, s => (add_ad_view tid r now s).2
  | .streak tid today, s => (claim_streak tid today s).2
  | .withdrawal tid m a addr now, s => (create_withdrawal tid m a addr now s).2
  | .resetDaily, s => (reset_daily_stats s).2
  | .setLanguage tid l, s => (update_user_language tid l s).2
  | .setSubscription tid b, s => (update_user_subscription tid b s).2

/-- Caller-side sanity: withdrawal amounts are non-negative (the
presentation layer only submits amounts at or above a positive
per-method minimum). -/
def wfOp : Op → Prop
  | .withdrawal _ _ amount _ _ => 0 ≤ amount
  | _ => True

instance : DecidablePred wfOp := fun op =>
  match op with
  | .createUser _ _ _ _ _ _ _ => inferInstanceAs (Decidable True)
  | .adView _ _ _ => inferInstanceAs (Decidable True)
  | .streak _ _ => inferInstanceAs (Decidable True)
  | .withdrawal _ _ a _ _ => inferInstanceAs (Decidable (0 ≤ a))
  | .resetDaily => inferInstanceAs (Decidable True)
  | .setLanguage _ _ => inferInstanceAs (Decidable True)
  | .setSubscription _ _ => inferInstanceAs (Decidable True)

/-- Run a sequence of engine operations from a starting state. -/
def runOps (ops : List Op) (s : DBState) : DBState :=
  ops.foldl (fun t op => applyOp op t) s

/-- Every user row of the state carries a zero withdrawable balance. -/
def balancesZero (s : DBState) : Prop := ∀ u ∈ s.users, u.balance = 0

/-! Concrete sample rows and states used to instantiate the theorems. -/

/-- A sample user holding a positive withdrawable balance. -/
def u1 : User :=
  { id := 1, telegram_id := 7, username := "alice", first_name := "A",
    last_name := "L", language := "en", balance := 3, hold_balance := 0,
    earned_today := 0, earned_total := 0, watched_today := 0, streak := 0,
    streak_multiplier := 1, is_subscribed := false, referral_code := "r7",
    referred_by := none, created_at := 0, last_active := 0,
    last_streak_claim := none }

def st1 : DBState := ⟨[u1], [], [], [], 2⟩

/-- A sample user with a running streak whose last claim was on day 99. -/
def u3 : User :=
  { u1 with streak := 5, streak_multiplier := 1.01,
            last_streak_claim := some 99 }

def st3 : DBState := ⟨[u3], [], [], [], 2⟩

/-- A sample user already holding the referral code that `create_user`
would generate for telegram id 20000000001. -/
def u9 : User := { u1 with referral_code := "0000000001" }

def st9 : DBState := ⟨[u9], [], [], [], 2⟩

/-- The first user registered on an empty store with telegram id 1:
the one situation in which the `ad_views.user_id REFERENCES users(id)`
constraint is satisfiable, because the internal serial id (1) coincides
with the telegram id. -/
def stW : DBState := (create_user 1 "dave" "D" "E" none none 0 emptyDB).2

/-- The user row `create_user` inserts into `stW`. -/
def uW : User :=
  { id := 1, telegram_id := 1, username := "dave", first_name := "D",
    last_name := "E", language := "en", balance := 0, hold_balance := 0,
    earned_today := 0, earned_total := 0, watched_today := 0, streak := 0,
    streak_multiplier := 1, is_subscribed := false, referral_code := "ref1",
    referred_by := none, created_at := 0, last_active := 0,
    last_streak_claim := none }

/-- Referrer (telegram id 100) registered on an empty store; receives
internal id 1. -/
def s_ref1 : DBState := (create_user 100 "alice" "" "" none none 0 emptyDB).2

/-- Referred user (telegram id 200) registered with `referred_by = 1`;
receives internal id 2 and a referral edge 1 → 2. -/
def s_ref2 : DBState := (create_user 200 "bob" "" "" none (some 1) 0 s_ref1).2

/-- The referred user tries to watch an ad of reward 0.001: the INSERT of
telegram id 200 into `ad_views.user_id` matches no internal id (these are
1 and 2), violates the foreign key, and the call changes nothing. -/
def s_ref3 : DBState := (add_ad_view 200 0.001 0 s_ref2).2

/-- The second attempted ad view, failing the same way. -/
def s_ref4 : DBState := (add_ad_view 200 0.001 0 s_ref3).2

/-- A sample trace exercising every engine operation once. -/
def sampleOps : List Op :=
  [.createUser 8 "carol" "C" "D" none none 0,
   .adView 8 PER_AD_REWARD 1,
   .streak 8 5,
   .withdrawal 8 "tron" 1 "addr" 2,
   .resetDaily,
   .setLanguage 8 "de",
   .setSubscription 8 true]

/-! ### Library lemmas about the store primitives -/

theorem find?_map_ite (l : List User) (tid : Nat) (f : User → User) (u : User)
    (hf : ∀ v, (f v).telegram_id = v.telegram_id)
    (h : l.find? (fun v => v.telegram_id == tid) = some u) :
    (l.map (fun v => if v.telegram_id = tid then f v else v)).find?
      (fun v => v.telegram_id == tid) = some (f u) := by
  induction l with
  | nil => simp at h
  | cons a l ih =>
    rw [List.map_cons]
    by_cases ha : a.telegram_id = tid
    · rw [List.find?_cons_of_pos _ (by simp [ha])] at h
      injection h with h
      subst h
      rw [if_pos ha]
      exact List.find?_cons_of_pos _ (by simp [hf, ha])
    · rw [List.find?_cons_of_neg _ (by simp [ha])] at h
      rw [if_neg ha]
      rw [List.find?_cons_of_neg _ (by simp [ha])]
      exact ih h

theorem findUser_updateUser (s : DBState) (tid : Nat) (f : User → User) (u : User)
    (hf : ∀ v, (f v).telegram_id = v.telegram_id)
    (h : findUser s tid = some u) :
    findUser (updateUser s tid f) tid = some (f u) :=
  find?_map_ite s.users tid f u hf h

theorem mem_updateUser_of_ne (s : DBState) (tid : Nat) (f : User → User)
    (v : User) (hv : v ∈ s.users) (hne : v.telegram_id ≠ tid) :
    v ∈ (updateUser s tid f).users :=
  List.mem_map.mpr ⟨v, hv, by rw [if_neg hne]⟩

/-- Every branch of `claim_streak` leaves the store unchanged (the success
branch is unreachable: the bonus line raises `NameError` first). -/
theorem claim_streak_state (tid today : Nat) (s : DBState) :
    (claim_streak tid today s).2 = s := by
  unfold claim_streak
  cases findUser s tid with
  | none => rfl
  | some u => by_cases h : u.last_streak_claim = some today <;> simp [h]

/-- `updateUser` with an id-preserving row function keeps the foreign-key
target set: if some row's internal id equals `tid` before, one does after. -/
theorem updateUser_any_id (s : DBState) (tid : Nat) (f : User → User)
    (hf : ∀ v, (f v).id = v.id)
    (h : s.users.any (fun v => v.id == tid) = true) :
    (updateUser s tid f).users.any (fun v => v.id == tid) = true := by
  rcases List.any_eq_true.mp h with ⟨v, hv, hp⟩
  refine List.any_eq_true.mpr
    ⟨if v.telegram_id = tid then f v else v, List.mem_map_of_mem _ hv, ?_⟩
  by_cases ht : v.telegram_id = tid
  · rw [if_pos ht, hf]
    exact hp
  · rw [if_neg ht]
    exact hp

/-- Effect of one successful `add_ad_view` call — the user exists and the
telegram id satisfies the `ad_views.user_id` foreign key — on the found
user row and on the four tables, plus preservation of the foreign-key
condition for the next call. -/
theorem add_ad_view_found (s : DBState) (tid : Nat) (u : User)
    (hu : findUser s tid = some u)
    (hfk : s.users.any (fun v => v.id == tid) = true)
    (reward : ℚ) (now : Nat) :
    (add_ad_view tid reward now s).1 = true ∧
    findUser (add_ad_view tid reward now s).2 tid = some
      { u with watched_today := u.watched_today + 1,
               earned_today := u.earned_today + reward,
               earned_total := u.earned_total + reward,
               hold_balance := u.hold_balance + reward,
               last_active := now } ∧
    (add_ad_view tid reward now s).2.ad_views
        = s.ad_views ++ [⟨tid, "monetag", reward, now⟩] ∧
    (add_ad_view tid reward now s).2.withdrawals = s.withdrawals ∧
    (add_ad_view tid reward now s).2.referrals = s.referrals ∧
    (add_ad_view tid reward now s).2.next_id = s.next_id ∧
    (add_ad_view tid reward now s).2.users.length = s.users.length ∧
    (add_ad_view tid reward now s).2.users.any (fun v => v.id == tid) = true := by
  refine ⟨?_, ?_, ?_, ?_, ?_, ?_, ?_, ?_⟩
  · simp only [add_ad_view, hu]
    rw [if_pos hfk]
  · simp only [add_ad_view, hu]
    rw [if_pos hfk]
    exact findUser_updateUser s tid _ u (fun v => rfl) hu
  · simp only [add_ad_view, hu]
    rw [if_pos hfk]
    simp [updateUser]
  · simp only [add_ad_view, hu]
    rw [if_pos hfk]
    simp [updateUser]
  · simp only [add_ad_view, hu]
    rw [if_pos hfk]
    simp [updateUser]
  · simp only [add_ad_view, hu]
    rw [if_pos hfk]
    simp [updateUser]
  · simp only [add_ad_view, hu]
    rw [if_pos hfk]
    simp [updateUser]
  · simp only [add_ad_view, hu]
    rw [if_pos hfk]
    exact updateUser_any_id s tid _ (fun v => rfl) hfk

/-- Accumulated effect of `n` consecutive successful ad views on
`earned_total` and `watched_today`. -/
theorem iterate_ad_views_find (tid : Nat) (reward : ℚ) (now : Nat) (n : Nat) :
    ∀ (s : DBState) (u : User), findUser s tid = some u →
      s.users.any (fun v => v.id == tid) = true →
    ∃ u1, findUser (iterate_ad_views tid reward now n s) tid = some u1 ∧
      u1.earned_total = u.earned_total + n * reward ∧
      u1.watched_today = u.watched_today + n := by
  induction n with
  | zero => exact fun s u hu _ => ⟨u, hu, by simp, by simp⟩
  | succ n ih =>
    intro s u hu hfk
    obtain ⟨_, h1, _, _, _, _, _, h8⟩ := add_ad_view_found s tid u hu hfk reward now
    obtain ⟨u1, hfind, het, hwt⟩ := ih _ _ h1 h8
    refine ⟨u1, hfind, ?_, ?_⟩
    · rw [het]
      show u.earned_total + reward + (n : ℚ) * reward = _
      push_cast
      ring
    · rw [hwt]
      show u.watched_today + 1 + n = _
      omega

/-- `create_user` either changes no user row (constraint violation) or
appends exactly one row whose balance is the schema default 0. -/
theorem create_user_users_cases (tid : Nat) (un fn ln : String)
    (rc : Option String) (rb : Option Nat) (now : Nat) (s : DBState) :
    (create_user tid un fn ln rc rb now s).2.users = s.users ∨
    ∃ nu, (create_user tid un fn ln rc rb now s).2.users = s.users ++ [nu] ∧
      nu.balance = 0 := by
  unfold create_user
  cases rc <;> dsimp only <;> repeat' split
  all_goals first
    | exact Or.inl rfl
    | exact Or.inr ⟨_, rfl, rfl⟩

/-- No engine operation (withdrawals restricted to non-negative amounts)
can make any user's withdrawable balance non-zero. -/
theorem applyOp_balancesZero (op : Op) (hop : wfOp op) (s : DBState)
    (hs : balancesZero s) : balancesZero (applyOp op s) := by
  cases op with
  | createUser tid un fn ln rc rb now =>
    intro u hu
    rcases create_user_users_cases tid un fn ln rc rb now s with h | ⟨nu, h, hb⟩
    · rw [show applyOp (.createUser tid un fn ln rc rb now) s
          = (create_user tid un fn ln rc rb now s).2 from rfl] at hu
      rw [h] at hu
      exact hs u hu
    · rw [show applyOp (.createUser tid un fn ln rc rb now) s
          = (create_user tid un fn ln rc rb now s).2 from rfl] at hu
      rw [h] at hu
      rcases List.mem_append.mp hu with h1 | h2
      · exact hs u h1
      · rw [List.mem_singleton.mp h2]
        exact hb
  | adView tid r now =>
    intro u hu
    cases h : findUser s tid with
    | none => simp only [applyOp, add_ad_view, h] at hu; exact hs u hu
    | some v0 =>
      by_cases hfk : s.users.any (fun v => v.id == tid) = true
      · simp only [applyOp, add_ad_view, h] at hu
        rw [if_pos hfk] at hu
        simp only [updateUser] at hu
        rcases List.mem_map.mp hu with ⟨v, hv, heq⟩
        subst heq
        by_cases hb : v.telegram_id = tid
        · rw [if_pos hb]
          exact hs v hv
        · rw [if_neg hb]
          exact hs v hv
      · simp only [applyOp, add_ad_view, h] at hu
        rw [if_neg hfk] at hu
        exact hs u hu
  | streak tid today =>
    intro u hu
    rw [show applyOp (.streak tid today) s = (claim_streak tid today s).2 from rfl,
      claim_streak_state] at hu
    exact hs u hu
  | withdrawal tid m a addr now =>
    intro u hu
    cases h : findUser s tid with
    | none => simp only [applyOp, create_withdrawal, h] at hu; exact hs u hu
    | some v0 =>
      have hv0 : v0.balance = 0 := hs v0 (List.mem_of_find?_eq_some h)
      by_cases hlt : v0.balance < a
      · simp only [applyOp, create_withdrawal, h, if_pos hlt] at hu
        exact hs u hu
      · have ha : a = 0 := le_antisymm (by rw [hv0] at hlt; linarith [not_lt.mp hlt]) hop
        simp only [applyOp, create_withdrawal, h, if_neg hlt, updateUser] at hu
        rcases List.mem_map.mp hu with ⟨v, hv, heq⟩
        subst heq
        by_cases hb : v.telegram_id = tid
        · rw [if_pos hb]
          show v.balance - a = 0
          rw [hs v hv, ha, sub_zero]
        · rw [if_neg hb]
          exact hs v hv
  | resetDaily =>
    intro u hu
    simp only [applyOp, reset_daily_stats] at hu
    rcases List.mem_map.mp hu with ⟨v, hv, heq⟩
    subst heq
    exact hs v hv
  | setLanguage tid l =>
    intro u hu
    simp only [applyOp, update_user_language, updateUser] at hu
    rcases List.mem_map.mp hu with ⟨v, hv, heq⟩
    subst heq
    by_cases hb : v.telegram_id = tid
    · rw [if_pos hb]; exact hs v hv
    · rw [if_neg hb]; exact hs v hv
  | setSubscription tid b =>
    intro u hu
    simp only [applyOp, update_user_subscription, updateUser] at hu
    rcases List.mem_map.mp hu with ⟨v, hv, heq⟩
    subst heq
    by_cases hb : v.telegram_id = tid
    · rw [if_pos hb]; exact hs v hv
    · rw [if_neg hb]; exact hs v hv

theorem runOps_balancesZero (ops : List Op) :
    ∀ s : DBState, (∀ op ∈ ops, wfOp op) → balancesZero s →
      balancesZero (runOps ops s) := by
  induction ops with
  | nil => exact fun s _ hs => hs
  | cons op ops ih =>
    intro s hwf hs
    exact ih (applyOp op s)
      (fun o ho => hwf o (List.mem_cons_of_mem _ ho))
      (applyOp_balancesZero op (hwf op (List.mem_cons_self _ _)) s hs)

/-! ### Claim theorems -/

/-- Claim C1: for an existing user, `create_withdrawal` with
`amount > balance` fails with the insufficient-balance error and leaves
the whole state unchanged; with `amount ≤ balance` (including equality)
it succeeds, debits the balance by exactly the amount (equality leaves
the balance at exactly 0), appends exactly one withdrawal row with
status `pending`, and touches nothing else, all in the one transaction
modelled by the single state transition. -/
theorem create_withdrawal_spec (s : DBState) (tid : Nat) (u : User)
    (hu : findUser s tid = some u) (method address : String) (amount : ℚ)
    (now : Nat) :
    (u.balance < amount →
      create_withdrawal tid method amount address now s
        = ((false, "Insufficient balance"), s)) ∧
    (amount ≤ u.balance →
      (create_withdrawal tid method amount address now s).1
          = (true, "Withdrawal request created successfully") ∧
      (create_withdrawal tid method amount address now s).2.withdrawals
          = s.withdrawals ++ [⟨u.id, method, amount, address, "pending", now⟩] ∧
      findUser (create_withdrawal tid method amount address now s).2 tid
          = some { u with balance := u.balance - amount } ∧
      (amount = u.balance →
        findUser (create_withdrawal tid method amount address now s).2 tid
          = some { u with balance := 0 }) ∧
      (create_withdrawal tid method amount address now s).2.ad_views = s.ad_views ∧
      (create_withdrawal tid method amount address now s).2.referrals = s.referrals ∧
      (create_withdrawal tid method amount address now s).2.next_id = s.next_id ∧
      (create_withdrawal tid method amount address now s).2.users.length
          = s.users.length ∧
      ∀ v ∈ s.users, v.telegram_id ≠ tid →
        v ∈ (create_withdrawal tid method amount address now s).2.users) := by
  constructor
  · intro hlt
    simp only [create_withdrawal, hu, if_pos hlt]
  · intro hle
    have hnlt : ¬ u.balance < amount := not_lt.mpr hle
    have hfind : findUser (create_withdrawal tid method amount address now s).2 tid
        = some { u with balance := u.balance - amount } := by
      simp only [create_withdrawal, hu, if_neg hnlt]
      exact findUser_updateUser s tid _ u (fun v => rfl) hu
    refine ⟨?_, ?_, hfind, ?_, ?_, ?_, ?_, ?_, ?_⟩
    · simp only [create_withdrawal, hu, if_neg hnlt]
    · simp only [create_withdrawal, hu, if_neg hnlt, updateUser]
    · intro heq
      rw [hfind, heq, sub_self]
    · simp only [create_withdrawal, hu, if_neg hnlt, updateUser]
    · simp only [create_withdrawal, hu, if_neg hnlt, updateUser]
    · simp only [create_withdrawal, hu, if_neg hnlt, updateUser]
    · simp only [create_withdrawal, hu, if_neg hnlt, updateUser, List.length_map]
    · intro v hv hne
      simp only [create_withdrawal, hu, if_neg hnlt]
      exact mem_updateUser_of_ne s tid _ v hv hne

theorem create_withdrawal_spec_witness :
    ((create_withdrawal 7 "tron" 5 "addr" 5 st1)
        = ((false, "Insufficient balance"), st1)) ∧
    ((create_withdrawal 7 "litecoin" 3 "addr2" 6 st1).1
        = (true, "Withdrawal request created successfully")) ∧
    ((create_withdrawal 7 "litecoin" 3 "addr2" 6 st1).2.withdrawals
        = st1.withdrawals ++ [⟨1, "litecoin", 3, "addr2", "pending", 6⟩]) ∧
    (findUser (create_withdrawal 7 "litecoin" 3 "addr2" 6 st1).2 7
        = some { u1 with balance := 0 }) :=
  have h := (create_withdrawal_spec st1 7 u1 rfl "litecoin" "addr2" 3 6).2
    (by norm_num [u1])
  ⟨(create_withdrawal_spec st1 7 u1 rfl "tron" "addr" 5 5).1 (by norm_num [u1]),
   h.1, h.2.1, h.2.2.2.1 (by norm_num [u1])⟩

/-- Claim C2 (code bug): `claim_streak` never pays a bonus.  For a user who
has never claimed (so the claim says the bonus
`STREAK_BONUS * new_multiplier` should be paid into `earned_today`,
`earned_total` and `hold_balance` and returned), the call instead fails
with a `NameError` — database.py imports only `DB_CONFIG`, so the name
`STREAK_BONUS` is unbound at line 228 — and the state is unchanged. -/
theorem claim_streak_bonus_never_paid :
    findUser st1 7 = some u1 ∧ u1.last_streak_claim = none ∧
    claim_streak 7 100 st1
      = (ClaimResult.err "NameError: name STREAK_BONUS is not defined", st1) :=
  ⟨rfl, rfl, by decide⟩

/-- Claim C3 (code bug): for a user with streak 5 whose last claim was on
day 99, claiming again on day 99 fails with the already-claimed error and
changes nothing (this branch matches the claim); but claiming on day 100
(exactly yesterday, where the claim requires `streak := 6`) and on day 102
(gap, where the claim requires `streak := 1`) both fail with the
`NameError` raised at the bonus line, leaving the streak at 5. -/
theorem claim_streak_transition_never_applied :
    findUser st3 7 = some u3 ∧ u3.streak = 5 ∧
    u3.last_streak_claim = some 99 ∧
    claim_streak 7 99 st3 = (ClaimResult.err "Already claimed today", st3) ∧
    claim_streak 7 100 st3
      = (ClaimResult.err "NameError: name STREAK_BONUS is not defined", st3) ∧
    claim_streak 7 102 st3
      = (ClaimResult.err "NameError: name STREAK_BONUS is not defined", st3) ∧
    (∀ u ∈ (claim_streak 7 100 st3).2.users, u.streak = 5) :=
  ⟨rfl, rfl, rfl, rfl, rfl, rfl, by decide⟩

/-- Claim C4: a successful `add_ad_view` call — the user exists and the
insert satisfies the `ad_views.user_id REFERENCES users(id)` constraint,
i.e. the telegram id coincides with some internal id (otherwise the call
fails and changes nothing) — increments `watched_today` by exactly 1,
adds the reward to `earned_today`, `earned_total` and `hold_balance`,
stamps `last_active`, and appends exactly one ad-view record; and after
`n` successful calls with reward `r`, `earned_total` has grown by exactly
`n * r` and `watched_today` by exactly `n`. -/
theorem add_ad_view_spec (s : DBState) (tid : Nat) (u : User)
    (hu : findUser s tid = some u)
    (hfk : s.users.any (fun v => v.id == tid) = true)
    (reward : ℚ) (now : Nat) (n : Nat) :
    (add_ad_view tid reward now s).1 = true ∧
    findUser (add_ad_view tid reward now s).2 tid = some
      { u with watched_today := u.watched_today + 1,
               earned_today := u.earned_today + reward,
               earned_total := u.earned_total + reward,
               hold_balance := u.hold_balance + reward,
               last_active := now } ∧
    (add_ad_view tid reward now s).2.ad_views
        = s.ad_views ++ [⟨tid, "monetag", reward, now⟩] ∧
    (add_ad_view tid reward now s).2.withdrawals = s.withdrawals ∧
    (add_ad_view tid reward now s).2.referrals = s.referrals ∧
    ∃ u1, findUser (iterate_ad_views tid reward now n s) tid = some u1 ∧
      u1.earned_total = u.earned_total + n * reward ∧
      u1.watched_today = u.watched_today + n := by
  obtain ⟨h1, h2, h3, h4, h5, _, _, _⟩ := add_ad_view_found s tid u hu hfk reward now
  exact ⟨h1, h2, h3, h4, h5, iterate_ad_views_find tid reward now n s u hu hfk⟩

theorem add_ad_view_spec_witness :
    (add_ad_view 1 PER_AD_REWARD 9 stW).1 = true ∧
    (add_ad_view 1 PER_AD_REWARD 9 stW).2.ad_views
        = stW.ad_views ++ [⟨1, "monetag", PER_AD_REWARD, 9⟩] ∧
    (∃ w, findUser (iterate_ad_views 1 PER_AD_REWARD 9 3 stW) 1 = some w ∧
      w.earned_total = uW.earned_total + 3 * PER_AD_REWARD ∧
      w.watched_today = uW.watched_today + 3) :=
  have h := add_ad_view_spec stW 1 uW rfl rfl PER_AD_REWARD 9 3
  ⟨h.1, h.2.2.1, h.2.2.2.2.2⟩

/-- Claim C5 (code bug): the 30-day referral profit is lost to an id
mismatch.  A referrer (internal id 1, telegram id 100) refers a user
(internal id 2, telegram id 200) who then tries to watch two ads of
reward 0.001 inside the window.  `add_ad_view` inserts the telegram id
200 into `ad_views.user_id`, which `REFERENCES users(id)` and matches no
internal id (those are 1 and 2), so both inserts die on the foreign key:
the calls return `False`, commit nothing, no ad-view row is ever stored,
and `profit_30` is 0 instead of the `2 * 0.001 * 0.2 = 0.0004` the claim
requires. -/
theorem referral_profit_30_lost :
    (create_user 100 "alice" "" "" none none 0 emptyDB).1 = some 1 ∧
    (create_user 200 "bob" "" "" none (some 1) 0 s_ref1).1 = some 2 ∧
    s_ref2.referrals = [⟨1, 2, 0⟩] ∧
    (findUser s_ref2 200).isSome = true ∧
    s_ref2.users.map User.id = [1, 2] ∧
    add_ad_view 200 0.001 0 s_ref2 = (false, s_ref2) ∧
    add_ad_view 200 0.001 0 s_ref3 = (false, s_ref3) ∧
    s_ref4 = s_ref2 ∧
    s_ref4.ad_views = [] ∧
    (get_referral_stats 100 0 s_ref4).map ReferralStats.total_referrals
        = some 1 ∧
    (get_referral_stats 100 0 s_ref4).map ReferralStats.profit_30 = some 0 ∧
    (0 : ℚ) ≠ 0.0004 := by
  refine ⟨rfl, rfl, rfl, rfl, rfl, rfl, rfl, rfl, rfl, rfl, rfl, by norm_num⟩

/-- Claim C6: no engine operation ever credits the withdrawable balance —
rewards go to `hold_balance` only and withdrawals only debit — so from the
empty store, any sequence of engine operations (withdrawal amounts
non-negative, as the caller guarantees) leaves every user's balance at
exactly 0, and any `create_withdrawal` with a positive amount fails
without mutating the state. -/
theorem engine_balance_stays_zero (ops : List Op) (hwf : ∀ op ∈ ops, wfOp op) :
    (∀ u ∈ (runOps ops emptyDB).users, u.balance = 0) ∧
    (∀ tid method address amount now, 0 < amount →
      (create_withdrawal tid method amount address now (runOps ops emptyDB)).1.1
          = false ∧
      (create_withdrawal tid method amount address now (runOps ops emptyDB)).2
          = runOps ops emptyDB) := by
  have hz : balancesZero (runOps ops emptyDB) :=
    runOps_balancesZero ops emptyDB hwf (by intro u hu; simp [emptyDB] at hu)
  refine ⟨hz, ?_⟩
  intro tid method address amount now hpos
  cases h : findUser (runOps ops emptyDB) tid with
  | none => exact ⟨by simp [create_withdrawal, h], by simp [create_withdrawal, h]⟩
  | some u =>
    have hu0 : u.balance = 0 := hz u (List.mem_of_find?_eq_some h)
    have hlt : u.balance < amount := by rw [hu0]; exact hpos
    exact ⟨by simp [create_withdrawal, h, if_pos hlt],
           by simp [create_withdrawal, h, if_pos hlt]⟩

theorem engine_balance_stays_zero_witness :
    (create_withdrawal 8 "tron" 2 "addr" 9 (runOps sampleOps emptyDB)).1.1
        = false ∧
    (create_withdrawal 8 "tron" 2 "addr" 9 (runOps sampleOps emptyDB)).2
        = runOps sampleOps emptyDB :=
  (engine_balance_stays_zero sampleOps (by decide)).2 8 "tron" "addr" 2 9
    (by norm_num)

/-- Claim C7: `reset_daily_stats` reports success and, in one bulk update,
zeroes `watched_today` and `earned_today` for every user while leaving
every other user field — and the other four tables — untouched. -/
theorem reset_daily_stats_spec (s : DBState) :
    (reset_daily_stats s).1 = true ∧
    (reset_daily_stats s).2.users.length = s.users.length ∧
    (∀ u ∈ (reset_daily_stats s).2.users,
      u.watched_today = 0 ∧ u.earned_today = 0) ∧
    (∀ i : Nat,
      ((reset_daily_stats s).2.users[i]?).map User.earned_total
          = (s.users[i]?).map User.earned_total ∧
      ((reset_daily_stats s).2.users[i]?).map User.balance
          = (s.users[i]?).map User.balance ∧
      ((reset_daily_stats s).2.users[i]?).map User.hold_balance
          = (s.users[i]?).map User.hold_balance ∧
      ((reset_daily_stats s).2.users[i]?).map User.streak
          = (s.users[i]?).map User.streak ∧
      ((reset_daily_stats s).2.users[i]?).map User.streak_multiplier
          = (s.users[i]?).map User.streak_multiplier ∧
      ((reset_daily_stats s).2.users[i]?).map User.id
          = (s.users[i]?).map User.id ∧
      ((reset_daily_stats s).2.users[i]?).map User.telegram_id
          = (s.users[i]?).map User.telegram_id ∧
      ((reset_daily_stats s).2.users[i]?).map User.username
          = (s.users[i]?).map User.username ∧
      ((reset_daily_stats s).2.users[i]?).map User.first_name
          = (s.users[i]?).map User.first_name ∧
      ((reset_daily_stats s).2.users[i]?).map User.last_name
          = (s.users[i]?).map User.last_name ∧
      ((reset_daily_stats s).2.users[i]?).map User.language
          = (s.users[i]?).map User.language ∧
      ((reset_daily_stats s).2.users[i]?).map User.is_subscribed
          = (s.users[i]?).map User.is_subscribed ∧
      ((reset_daily_stats s).2.users[i]?).map User.referral_code
          = (s.users[i]?).map User.referral_code ∧
      ((reset_daily_stats s).2.users[i]?).map User.referred_by
          = (s.users[i]?).map User.referred_by ∧
      ((reset_daily_stats s).2.users[i]?).map User.created_at
          = (s.users[i]?).map User.created_at ∧
      ((reset_daily_stats s).2.users[i]?).map User.last_active
          = (s.users[i]?).map User.last_active ∧
      ((reset_daily_stats s).2.users[i]?).map User.last_streak_claim
          = (s.users[i]?).map User.last_streak_claim) ∧
    (reset_daily_stats s).2.withdrawals = s.withdrawals ∧
    (reset_daily_stats s).2.referrals = s.referrals ∧
    (reset_daily_stats s).2.ad_views = s.ad_views ∧
    (reset_daily_stats s).2.next_id = s.next_id := by
  refine ⟨rfl, by simp [reset_daily_stats], ?_, ?_, rfl, rfl, rfl, rfl⟩
  · intro u hu
    simp only [reset_daily_stats] at hu
    rcases List.mem_map.mp hu with ⟨v, _, heq⟩
    subst heq
    exact ⟨rfl, rfl⟩
  · intro i
    cases h : s.users[i]? <;>
      simp [reset_daily_stats, List.getElem?_map, h]

theorem reset_daily_stats_spec_witness :
    (reset_daily_stats st1).1 = true ∧
    ((reset_daily_stats st1).2.users[0]?).map User.earned_total
        = (st1.users[0]?).map User.earned_total ∧
    ((reset_daily_stats st1).2.users[0]?).map User.balance
        = (st1.users[0]?).map User.balance :=
  ⟨(reset_daily_stats_spec st1).1,
   ((reset_daily_stats_spec st1).2.2.2.1 0).1,
   ((reset_daily_stats_spec st1).2.2.2.1 0).2.1⟩

/-- Claim C8: the streak multiplier of src/database.py line 225 is the pure
function `min(1.0 + new_streak * 0.002, 2.0)` of the new streak value; it
lies in `[1, 2]` for every non-negative streak, and at streak 500 it clamps
to exactly 2, so the bonus formula of line 228 with config's
`STREAK_BONUS = 0.002` denotes `0.002 * 2.0 = 0.004`. -/
theorem new_multiplier_spec (streak : Nat) :
    1 ≤ new_multiplier streak ∧ new_multiplier streak ≤ 2 ∧
    new_multiplier 500 = 2 ∧ STREAK_BONUS * new_multiplier 500 = 0.004 := by
  refine ⟨?_, min_le_right _ _, ?_, ?_⟩
  · refine le_min ?_ (by norm_num)
    have h : (0 : ℚ) ≤ (streak : ℚ) * 0.002 := by positivity
    linarith
  · norm_num [new_multiplier, min_def]
  · norm_num [new_multiplier, STREAK_BONUS, min_def]

/-- Claim C9, counterexample: two distinct telegram ids that agree on their
last ten decimal digits receive the same generated referral code, so the
generated code is not injective in the external id. -/
theorem generated_referral_code_collision :
    (10000000001 : Nat) ≠ 20000000001 ∧
    generated_referral_code 10000000001 = generated_referral_code 20000000001 :=
  ⟨by decide, by decide⟩

/-- Claim C9, amended: the generated code is a deterministic function of
the external id but not injective; when the generated code already exists
in the users table, the UNIQUE constraint makes `create_user` fail —
it returns `None` and creates no row — rather than storing a silent
duplicate. -/
theorem create_user_code_collision (s : DBState) (tid : Nat)
    (un fn ln : String) (rb : Option Nat) (now : Nat)
    (h : s.users.any (fun u => u.referral_code == generated_referral_code tid)
        = true) :
    create_user tid un fn ln none rb now s = (none, s) := by
  simp only [create_user, h, Bool.or_true, if_true]

theorem create_user_code_collision_witness :
    create_user 20000000001 "carol" "C" "D" none none 3 st9 = (none, st9) :=
  create_user_code_collision st9 20000000001 "carol" "C" "D" none 3 (by decide)

/-- Claim C10: `add_ad_view` takes no ad-type argument, and every ad-view
row it appends carries the fixed tag `monetag`: any row of the post-state
ad-view log is either an old row or has `ad_type = "monetag"`. -/
theorem ad_view_type_always_monetag (s : DBState) (tid : Nat) (reward : ℚ)
    (now : Nat) :
    ∀ a ∈ (add_ad_view tid reward now s).2.ad_views,
      a ∈ s.ad_views ∨ a.ad_type = "monetag" := by
  intro a ha
  cases h : findUser s tid with
  | none =>
    simp only [add_ad_view, h] at ha
    exact Or.inl ha
  | some u =>
    simp only [add_ad_view, h] at ha
    by_cases hfk : s.users.any (fun v => v.id == tid) = true
    · rw [if_pos hfk] at ha
      simp only [updateUser] at ha
      rcases List.mem_append.mp ha with h1 | h2
      · exact Or.inl h1
      · right
        rw [List.mem_singleton.mp h2]
    · rw [if_neg hfk] at ha
      exact Or.inl ha

theorem ad_view_type_always_monetag_witness :
    (⟨1, "monetag", PER_AD_REWARD, 4⟩ : AdView)
        ∈ (add_ad_view 1 PER_AD_REWARD 4 stW).2.ad_views ∧
    ((⟨1, "monetag", PER_AD_REWARD, 4⟩ : AdView) ∈ stW.ad_views ∨
      (⟨1, "monetag", PER_AD_REWARD, 4⟩ : AdView).ad_type = "monetag") :=
  have hm : (⟨1, "monetag", PER_AD_REWARD, 4⟩ : AdView)
      ∈ (add_ad_view 1 PER_AD_REWARD 4 stW).2.ad_views :=
    List.mem_singleton.mpr rfl
  ⟨hm, ad_view_type_always_monetag stW 1 PER_AD_REWARD 4 _ hm⟩

end VuuugDB
